import Mathlib

/-!
Shallow embedding of the Chrome MCP server (src/index.js): the
ChromeController session manager and the call-tool request router.

Modelling conventions:
- Browser and page handles are abstract numeric tokens (`Nat`).
- The behaviour of the underlying puppeteer driver is an oracle `Env`
  giving each driver call its outcome (success, or a failure message).
- Each operation is a pure function from state and oracle to a triple
  `(Except McpError result, next state, trace of driver calls)`; the
  trace records the driver calls the operation issued, in order.
- JavaScript falsy/truthy coercions are modelled explicitly: an absent
  or `undefined` value is `none`; `x || d` on numbers treats `0` as
  falsy; `x || d` on strings treats the empty string as falsy.
-/

set_option autoImplicit false

deriving instance DecidableEq for Except

namespace ChromeMcp

/-- Error codes of the MCP protocol layer used by src/index.js. -/
inductive ErrorCode where
  | InvalidRequest
  | MethodNotFound
  | InternalError
  deriving DecidableEq, Repr

/-- Structured protocol error (McpError in src/index.js). -/
structure McpError where
  code : ErrorCode
  message : String
  deriving DecidableEq, Repr

/-- DOM element as seen by the page-evaluation callbacks: its text
content and its markup. JS string falsiness means the text counts as
absent exactly when it is empty. -/
structure Elem where
  textContent : String
  innerHTML : String
  deriving DecidableEq, Repr

/-- In-page scroll command produced by the script that
ChromeController.scrollPage evaluates: a relative scroll (scrollBy), an
absolute scroll (scrollTo), or no scroll at all (unknown direction). -/
inductive ScrollCommand where
  | scrollBy (top : Int) (smooth : Bool)
  | scrollTo (top : Int) (smooth : Bool)
  | noScroll
  deriving DecidableEq, Repr

/-- One call into the puppeteer driver, as recorded in an operation
trace. -/
inductive DriverCall where
  | browserClose (b : Nat)
  | launch
  | newPage
  | setUserAgent (ua : String)
  | goto (url : String) (waitUntil : String) (timeout : Nat)
  | waitForSelector (sel : String) (timeout : Nat)
  | click (sel : String) (clickCount : Nat)
  | evalClearSearchBox
  | typeChars (sel : String) (text : String) (delay : Option Nat)
  | pressKey (key : String)
  | screenshotCall (imageType : String) (fullPage : Bool) (quality : Nat)
  | evalSelectorQuery (sel : String)
  | pageContent
  | evalScroll (cmd : ScrollCommand)
  deriving DecidableEq, Repr

/-- Oracle fixing the outcome of every driver call: `none` / `Except.ok`
means the call succeeds, `some e` / `Except.error e` means it rejects
with message `e`. -/
structure Env where
  closeErr : Nat → Option String
  launchResult : Except String Nat
  newPageResult : Nat → Except String Nat
  setUserAgentErr : Option String
  gotoErr : String → Option String
  currentUrl : String
  titleResult : Except String String
  waitErr : String → Nat → Option String
  clickErr : String → Option String
  evalErr : Option String
  typeErr : String → Option String
  pressErr : String → Option String
  screenshotResult : Except String String
  querySelector : String → Option Elem
  contentResult : Except String String
  scrollHeight : Int

/-- The ChromeController instance fields: browser handle, page handle,
and the isInitialized flag. -/
structure ChromeState where
  browser : Option Nat
  page : Option Nat
  isInitialized : Bool
  deriving DecidableEq, Repr

/-- Result triple of one session-manager operation. -/
abbrev OpResult (α : Type) := Except McpError α × ChromeState × List DriverCall

/-- Envelope returned by a successful initialize. -/
structure InitResult where
  success : Bool
  message : String
  deriving DecidableEq, Repr

/-- Envelope returned by a successful navigateTo. -/
structure NavigateResult where
  success : Bool
  url : String
  title : String
  message : String
  deriving DecidableEq, Repr

/-- Envelope returned by a successful search. -/
structure SearchResult where
  success : Bool
  query : String
  url : String
  title : String
  message : String
  deriving DecidableEq, Repr

/-- Envelope returned by a successful takeScreenshot. -/
structure ScreenshotResult where
  success : Bool
  screenshot : String
  message : String
  deriving DecidableEq, Repr

/-- Envelope returned by a successful getContent. -/
structure ContentResult where
  success : Bool
  content : String
  url : String
  title : String
  message : String
  deriving DecidableEq, Repr

/-- Envelope returned by a successful clickElement. -/
structure ClickResult where
  success : Bool
  selector : String
  message : String
  deriving DecidableEq, Repr

/-- Envelope returned by a successful typeText. -/
structure TypeResult where
  success : Bool
  selector : String
  text : String
  message : String
  deriving DecidableEq, Repr

/-- Envelope returned by a successful waitForElement. -/
structure WaitResult where
  success : Bool
  selector : String
  message : String
  deriving DecidableEq, Repr

/-- Envelope returned by a successful scrollPage. -/
structure ScrollResult where
  success : Bool
  direction : String
  distance : Int
  message : String
  deriving DecidableEq, Repr

/-- Envelope returned by close when a browser handle existed. When no
browser handle exists, close returns undefined, modelled as `none`. -/
structure CloseResult where
  success : Bool
  message : String
  deriving DecidableEq, Repr

/-- JS `x || d` on a possibly-undefined number: 0 is falsy. -/
def natOr (x : Option Nat) (d : Nat) : Nat :=
  match x with
  | none => d
  | some n => if n = 0 then d else n

/-- JS `x || d` on a possibly-undefined (possibly negative) number. -/
def intOr (x : Option Int) (d : Int) : Int :=
  match x with
  | none => d
  | some n => if n = 0 then d else n

/-- JS `x || d` on a possibly-undefined string: the empty string is
falsy. -/
def strOr (x : Option String) (d : String) : String :=
  match x with
  | none => d
  | some v => if v = "" then d else v

/-- JS `x !== false` on a possibly-undefined boolean. -/
def jsNotFalse (x : Option Bool) : Bool :=
  match x with
  | some false => false
  | _ => true

/-- JS truthiness of a possibly-undefined string. -/
def strTruthy (x : Option String) : Bool :=
  match x with
  | none => false
  | some v => v != ""

/-- User-agent string set by ChromeController.initialize. -/
def userAgentString : String :=
  "Mozilla/5.0 (Windows NT 10.0; Win64; x64) AppleWebKit/537.36 (KHTML, like Gecko) Chrome/120.0.0.0 Safari/537.36"

/-- Launch phase of ChromeController.initialize: puppeteer.launch, then
browser.newPage, then isInitialized is set, then page.setUserAgent; any
rejection is caught and rethrown as an InternalError prefixed with the
initialization-failure text. The state mutations happen in source
order, so an early failure leaves the later fields untouched. -/
def initLaunchPhase (s : ChromeState) (env : Env) (tr : List DriverCall) : OpResult InitResult :=
  match env.launchResult with
  | Except.error e =>
      (Except.error ⟨ErrorCode.InternalError, "浏览器初始化失败: " ++ e⟩, s,
        tr ++ [DriverCall.launch])
  | Except.ok b =>
      let s1 : ChromeState := { s with browser := some b }
      match env.newPageResult b with
      | Except.error e =>
          (Except.error ⟨ErrorCode.InternalError, "浏览器初始化失败: " ++ e⟩, s1,
            tr ++ [DriverCall.launch, DriverCall.newPage])
      | Except.ok p =>
          let s2 : ChromeState := { s1 with page := some p, isInitialized := true }
          match env.setUserAgentErr with
          | some e =>
              (Except.error ⟨ErrorCode.InternalError, "浏览器初始化失败: " ++ e⟩, s2,
                tr ++ [DriverCall.launch, DriverCall.newPage,
                  DriverCall.setUserAgent userAgentString])
          | none =>
              (Except.ok ⟨true, "Chrome浏览器初始化成功"⟩, s2,
                tr ++ [DriverCall.launch, DriverCall.newPage,
                  DriverCall.setUserAgent userAgentString])

/-- ChromeController.initialize: if a browser handle exists it is closed
first (without clearing the fields), then the launch phase runs. The
options argument is always the empty object in this program (initialize
is only ever called internally with no arguments), so the merged launch
options are exactly the defaults and are not modelled further. -/
def initBrowser (s : ChromeState) (env : Env) : OpResult InitResult :=
  match s.browser with
  | some b =>
      match env.closeErr b with
      | some e =>
          (Except.error ⟨ErrorCode.InternalError, "浏览器初始化失败: " ++ e⟩, s,
            [DriverCall.browserClose b])
      | none => initLaunchPhase s env [DriverCall.browserClose b]
  | none => initLaunchPhase s env []

/-- Navigation-option overrides passed to navigateTo; spread over the
defaults waitUntil = networkidle2, timeout = 30000. -/
structure NavOverrides where
  waitUntil : Option String := none
  timeout : Option Nat := none
  deriving DecidableEq, Repr

/-- Body of the try block of ChromeController.navigateTo: page.goto with
merged options, then page.url and page.title for the envelope. A null
page handle makes the property access throw, which the catch block wraps
as a navigation failure. -/
def navGoto (s : ChromeState) (env : Env) (url : String) (opts : NavOverrides)
    (tr : List DriverCall) : OpResult NavigateResult :=
  match s.page with
  | none =>
      (Except.error ⟨ErrorCode.InternalError,
        "导航失败: Cannot read properties of null"⟩, s, tr)
  | some _ =>
      let wu := opts.waitUntil.getD ("networkidle2")
      let tmo := opts.timeout.getD 30000
      let t1 := tr ++ [DriverCall.goto url wu tmo]
      match env.gotoErr url with
      | some e =>
          (Except.error ⟨ErrorCode.InternalError, "导航失败: " ++ e⟩, s, t1)
      | none =>
          match env.titleResult with
          | Except.error e =>
              (Except.error ⟨ErrorCode.InternalError, "导航失败: " ++ e⟩, s, t1)
          | Except.ok t =>
              (Except.ok ⟨true, env.currentUrl, t, "成功导航到: " ++ url⟩, s, t1)

/-- ChromeController.navigateTo: lazily initializes when the
isInitialized flag is false (an initialization failure propagates as the
initialization InternalError, since the call sits before the try block),
then runs the goto body. -/
def navigateTo (s : ChromeState) (env : Env) (url : String) (opts : NavOverrides) :
    OpResult NavigateResult :=
  if s.isInitialized then navGoto s env url opts []
  else
    match initBrowser s env with
    | (Except.error e, s1, tr) => (Except.error e, s1, tr)
    | (Except.ok _, s1, tr) => navGoto s1 env url opts tr

/-- Fixed search-engine homepage used by ChromeController.search. -/
def bingUrl : String := "https://www.bing.com"

/-- Search-input selector used by ChromeController.search. -/
def searchBoxSelector : String := "#sb_form_q"

/-- Results-container selector used by ChromeController.search. -/
def resultsSelector : String := "#b_results"

/-- Search-failure wrapper of the catch block of
ChromeController.search. -/
def searchFail (e : String) : McpError :=
  ⟨ErrorCode.InternalError, "搜索失败: " ++ e⟩

/-- Body of the try block of ChromeController.search, run against a
present page: goto the search homepage (networkidle2, 30000), wait for
the search box (10000), click it, clear it by evaluation, type the
query, press Enter, wait for the results container (15000), then read
the title for the envelope. The first rejection aborts the sequence and
is wrapped as a search failure. -/
def searchSteps (s : ChromeState) (env : Env) (query : String)
    (tr : List DriverCall) : OpResult SearchResult :=
  let t1 := tr ++ [DriverCall.goto bingUrl ("networkidle2") 30000]
  match env.gotoErr bingUrl with
  | some e => (Except.error (searchFail e), s, t1)
  | none =>
    let t2 := t1 ++ [DriverCall.waitForSelector searchBoxSelector 10000]
    match env.waitErr searchBoxSelector 10000 with
    | some e => (Except.error (searchFail e), s, t2)
    | none =>
      let t3 := t2 ++ [DriverCall.click searchBoxSelector 1]
      match env.clickErr searchBoxSelector with
      | some e => (Except.error (searchFail e), s, t3)
      | none =>
        let t4 := t3 ++ [DriverCall.evalClearSearchBox]
        match env.evalErr with
        | some e => (Except.error (searchFail e), s, t4)
        | none =>
          let t5 := t4 ++ [DriverCall.typeChars searchBoxSelector query none]
          match env.typeErr searchBoxSelector with
          | some e => (Except.error (searchFail e), s, t5)
          | none =>
            let t6 := t5 ++ [DriverCall.pressKey ("Enter")]
            match env.pressErr ("Enter") with
            | some e => (Except.error (searchFail e), s, t6)
            | none =>
              let t7 := t6 ++ [DriverCall.waitForSelector resultsSelector 15000]
              match env.waitErr resultsSelector 15000 with
              | some e => (Except.error (searchFail e), s, t7)
              | none =>
                match env.titleResult with
                | Except.error e => (Except.error (searchFail e), s, t7)
                | Except.ok t =>
                    (Except.ok ⟨true, query, env.currentUrl, t,
                      "已在Bing中搜索\"" ++ query ++ "\"，结果已加载"⟩, s, t7)

/-- Dispatch of the search body on the current page handle: a null page
makes the first property access throw inside the try block. -/
def searchGo (s : ChromeState) (env : Env) (query : String)
    (tr : List DriverCall) : OpResult SearchResult :=
  match s.page with
  | none =>
      (Except.error (searchFail ("Cannot read properties of null")), s, tr)
  | some _ => searchSteps s env query tr

/-- ChromeController.search: lazily initializes when the isInitialized
flag is false, then runs the search body. -/
def search (s : ChromeState) (env : Env) (query : String) : OpResult SearchResult :=
  if s.isInitialized then searchGo s env query []
  else
    match initBrowser s env with
    | (Except.error e, s1, tr) => (Except.error e, s1, tr)
    | (Except.ok _, s1, tr) => searchGo s1 env query tr

/-- Screenshot-option overrides passed to takeScreenshot; spread over
the defaults type = png, fullPage = true, quality = 90. -/
structure ScreenshotOverrides where
  imageType : Option String := none
  fullPage : Option Bool := none
  quality : Option Nat := none
  deriving DecidableEq, Repr

/-- ChromeController.takeScreenshot: requires an existing page handle
(InvalidRequest otherwise), merges the overrides over the defaults,
captures the page, and returns the image as a base64 data URL. -/
def takeScreenshot (s : ChromeState) (env : Env) (opts : ScreenshotOverrides) :
    OpResult ScreenshotResult :=
  match s.page with
  | none => (Except.error ⟨ErrorCode.InvalidRequest, "浏览器未初始化"⟩, s, [])
  | some _ =>
      let ty := opts.imageType.getD ("png")
      let fp := opts.fullPage.getD true
      let q := opts.quality.getD 90
      let tr := [DriverCall.screenshotCall ty fp q]
      match env.screenshotResult with
      | Except.error e =>
          (Except.error ⟨ErrorCode.InternalError, "截图失败: " ++ e⟩, s, tr)
      | Except.ok b64 =>
          (Except.ok ⟨true, "data:image/png;base64," ++ b64, "页面截图完成"⟩, s, tr)

/-- Result envelope assembly shared by both getContent branches: page
url and title join the extracted content; a title rejection is caught
and wrapped as a content failure. -/
def contentFinish (s : ChromeState) (env : Env) (c : String)
    (tr : List DriverCall) : OpResult ContentResult :=
  match env.titleResult with
  | Except.error e =>
      (Except.error ⟨ErrorCode.InternalError, "获取内容失败: " ++ e⟩, s, tr)
  | Except.ok t =>
      (Except.ok ⟨true, c, env.currentUrl, t, "页面内容获取完成"⟩, s, tr)

/-- ChromeController.getContent: requires an existing page handle
(InvalidRequest otherwise). With a truthy selector it evaluates
page.$eval(selector, el => el.textContent || el.innerHTML) — the first
matched element's text, falling back to its markup when the text is
empty; when no element matches, $eval rejects and the catch block wraps
it as an InternalError. With no (or an empty, hence falsy) selector it
returns the full page markup. -/
def getContent (s : ChromeState) (env : Env) (selector : Option String) :
    OpResult ContentResult :=
  match s.page with
  | none => (Except.error ⟨ErrorCode.InvalidRequest, "浏览器未初始化"⟩, s, [])
  | some _ =>
      if strTruthy selector then
        let sel := selector.getD ("")
        let tr := [DriverCall.evalSelectorQuery sel]
        match env.querySelector sel with
        | none =>
            (Except.error ⟨ErrorCode.InternalError,
              "获取内容失败: Error: failed to find element matching selector " ++ sel⟩,
              s, tr)
        | some el =>
            let c := if el.textContent = "" then el.innerHTML else el.textContent
            contentFinish s env c tr
      else
        let tr := [DriverCall.pageContent]
        match env.contentResult with
        | Except.error e =>
            (Except.error ⟨ErrorCode.InternalError, "获取内容失败: " ++ e⟩, s, tr)
        | Except.ok c => contentFinish s env c tr

/-- ChromeController.clickElement: requires an existing page handle
(InvalidRequest otherwise), waits for the selector with a 10000ms
timeout, then clicks it. The click options argument is always the empty
object at the single call site, so it is not modelled. -/
def clickElement (s : ChromeState) (env : Env) (selector : String) :
    OpResult ClickResult :=
  match s.page with
  | none => (Except.error ⟨ErrorCode.InvalidRequest, "浏览器未初始化"⟩, s, [])
  | some _ =>
      let t1 := [DriverCall.waitForSelector selector 10000]
      match env.waitErr selector 10000 with
      | some e =>
          (Except.error ⟨ErrorCode.InternalError, "点击元素失败: " ++ e⟩, s, t1)
      | none =>
          let t2 := t1 ++ [DriverCall.click selector 1]
          match env.clickErr selector with
          | some e =>
              (Except.error ⟨ErrorCode.InternalError, "点击元素失败: " ++ e⟩, s, t2)
          | none =>
              (Except.ok ⟨true, selector, "成功点击元素: " ++ selector⟩, s, t2)

/-- Type-option object passed to typeText: a clear flag (truthy check)
and a per-character delay merged by delay || 50. -/
structure TypeOptions where
  clear : Option Bool := none
  delay : Option Nat := none
  deriving DecidableEq, Repr

/-- Typing phase of ChromeController.typeText: page.type with the
merged delay. -/
def typeFinish (s : ChromeState) (env : Env) (selector text : String)
    (delay : Nat) (tr : List DriverCall) : OpResult TypeResult :=
  let t2 := tr ++ [DriverCall.typeChars selector text (some delay)]
  match env.typeErr selector with
  | some e =>
      (Except.error ⟨ErrorCode.InternalError, "输入文本失败: " ++ e⟩, s, t2)
  | none =>
      (Except.ok ⟨true, selector, text, "成功输入文本到: " ++ selector⟩, s, t2)

/-- ChromeController.typeText: requires an existing page handle
(InvalidRequest otherwise), waits for the selector (10000ms); when the
clear option is truthy it triple-clicks the field first; then types the
text with delay options.delay || 50. -/
def typeText (s : ChromeState) (env : Env) (selector text : String)
    (opts : TypeOptions) : OpResult TypeResult :=
  match s.page with
  | none => (Except.error ⟨ErrorCode.InvalidRequest, "浏览器未初始化"⟩, s, [])
  | some _ =>
      let t1 := [DriverCall.waitForSelector selector 10000]
      match env.waitErr selector 10000 with
      | some e =>
          (Except.error ⟨ErrorCode.InternalError, "输入文本失败: " ++ e⟩, s, t1)
      | none =>
          if opts.clear = some true then
            let t2 := t1 ++ [DriverCall.click selector 3]
            match env.clickErr selector with
            | some e =>
                (Except.error ⟨ErrorCode.InternalError, "输入文本失败: " ++ e⟩, s, t2)
            | none => typeFinish s env selector text (natOr opts.delay 50) t2
          else typeFinish s env selector text (natOr opts.delay 50) t1

/-- ChromeController.waitForElement: requires an existing page handle
(InvalidRequest otherwise), then waits for the selector with the given
timeout; a timeout rejection is wrapped as an InternalError. -/
def waitForElement (s : ChromeState) (env : Env) (selector : String)
    (timeout : Nat) : OpResult WaitResult :=
  match s.page with
  | none => (Except.error ⟨ErrorCode.InvalidRequest, "浏览器未初始化"⟩, s, [])
  | some _ =>
      let tr := [DriverCall.waitForSelector selector timeout]
      match env.waitErr selector timeout with
      | some e =>
          (Except.error ⟨ErrorCode.InternalError, "等待元素失败: " ++ e⟩, s, tr)
      | none =>
          (Except.ok ⟨true, selector, "元素已出现: " ++ selector⟩, s, tr)

/-- In-page script evaluated by ChromeController.scrollPage: down and up
are relative scrolls by plus and minus the distance, top is an absolute
scroll to 0, bottom is an absolute scroll to document.body.scrollHeight;
any other direction scrolls nothing. The smooth flag only selects the
smooth-behavior option. -/
def scrollScript (direction : String) (distance : Int) (smooth : Bool)
    (scrollHeight : Int) : ScrollCommand :=
  if direction = "down" then ScrollCommand.scrollBy distance smooth
  else if direction = "up" then ScrollCommand.scrollBy (-distance) smooth
  else if direction = "top" then ScrollCommand.scrollTo 0 smooth
  else if direction = "bottom" then ScrollCommand.scrollTo scrollHeight smooth
  else ScrollCommand.noScroll

/-- Scroll options destructured by scrollPage with defaults
direction = down, distance = 500, smooth = true (destructuring defaults
apply on undefined). -/
structure ScrollOptions where
  direction : Option String := none
  distance : Option Int := none
  smooth : Option Bool := none
  deriving DecidableEq, Repr

/-- ChromeController.scrollPage: requires an existing page handle
(InvalidRequest otherwise), applies the destructuring defaults, and
evaluates the scroll script in the page; an evaluation rejection is
wrapped as an InternalError. -/
def scrollPage (s : ChromeState) (env : Env) (opts : ScrollOptions) :
    OpResult ScrollResult :=
  match s.page with
  | none => (Except.error ⟨ErrorCode.InvalidRequest, "浏览器未初始化"⟩, s, [])
  | some _ =>
      let dir := opts.direction.getD ("down")
      let dist := opts.distance.getD 500
      let sm := opts.smooth.getD true
      let tr := [DriverCall.evalScroll (scrollScript dir dist sm env.scrollHeight)]
      match env.evalErr with
      | some e =>
          (Except.error ⟨ErrorCode.InternalError, "页面滚动失败: " ++ e⟩, s, tr)
      | none =>
          (Except.ok ⟨true, dir, dist, "页面滚动完成: " ++ dir⟩, s, tr)

/-- ChromeController.close: when a browser handle exists, closes it and
clears the browser handle, the page handle and the isInitialized flag,
returning the closed envelope; when none exists, the guarded body is
skipped and the function returns undefined, modelled as `Except.ok
none`. A close rejection is wrapped as an InternalError and leaves the
fields untouched. -/
def close (s : ChromeState) (env : Env) :
    Except McpError (Option CloseResult) × ChromeState × List DriverCall :=
  match s.browser with
  | some b =>
      match env.closeErr b with
      | some e =>
          (Except.error ⟨ErrorCode.InternalError, "关闭浏览器失败: " ++ e⟩, s,
            [DriverCall.browserClose b])
      | none =>
          (Except.ok (some ⟨true, "浏览器已关闭"⟩), ⟨none, none, false⟩,
            [DriverCall.browserClose b])
  | none => (Except.ok none, s, [])

/-- Argument object of one call-tool request; every key is optional
(absent keys read as undefined). Required string arguments that the
router forwards without a default (url, query, selector, text) are read
with getD of the empty string: the router never inspects them, it only
passes them on to the driver, whose oracle may fail on any value. -/
structure ToolArgs where
  url : Option String := none
  waitUntil : Option String := none
  query : Option String := none
  fullPage : Option Bool := none
  quality : Option Nat := none
  selector : Option String := none
  text : Option String := none
  clear : Option Bool := none
  timeout : Option Nat := none
  direction : Option String := none
  distance : Option Int := none
  smooth : Option Bool := none
  deriving DecidableEq, Repr

/-- An error inside the call-tool try block: either a structured
McpError, or a raw runtime error carrying only a message (for example
the property access on an undefined arguments object). -/
inductive JsError where
  | mcp (e : McpError)
  | raw (msg : String)
  deriving DecidableEq, Repr

/-- Serialized payload of a successful call-tool dispatch: the envelope
of the operation that ran. -/
inductive ToolResponse where
  | navigate (r : NavigateResult)
  | searchResp (r : SearchResult)
  | screenshot (r : ScreenshotResult)
  | content (r : ContentResult)
  | clicked (r : ClickResult)
  | typed (r : TypeResult)
  | waited (r : WaitResult)
  | scrolled (r : ScrollResult)
  | closed (r : Option CloseResult)
  deriving DecidableEq, Repr

/-- The fixed set of tool names in the call-tool switch. -/
def knownToolNames : List String :=
  ["chrome_navigate", "chrome_search", "chrome_screenshot", "chrome_get_content",
   "chrome_click", "chrome_type", "chrome_wait_for_element", "chrome_scroll",
   "chrome_close"]

/-- Message of the raw TypeError raised when the arguments object is
undefined and a case reads a property of it (node also names the
property being read; the exact text is irrelevant here). -/
def undefinedArgsMsg : String := "Cannot read properties of undefined"

/-- Lift the result of a session-manager operation into the call-tool
try block: an McpError becomes a structured JsError. -/
def liftOp {α : Type} (wrap : α → ToolResponse) :
    OpResult α → Except JsError ToolResponse × ChromeState × List DriverCall
  | (Except.error e, s1, tr) => (Except.error (JsError.mcp e), s1, tr)
  | (Except.ok r, s1, tr) => (Except.ok (wrap r), s1, tr)

/-- Body of the try block of the CallToolRequestSchema handler: the
switch on the tool name. Each known case reads its arguments (a raw
TypeError when the arguments object is undefined, except chrome_close
which reads none), applies the router defaults (|| for numbers and
strings, !== false for booleans), and invokes the matching
session-manager operation; the default case throws MethodNotFound. -/
def dispatchBody (name : String) (args : Option ToolArgs) (s : ChromeState)
    (env : Env) : Except JsError ToolResponse × ChromeState × List DriverCall :=
  if name = "chrome_navigate" then
    match args with
    | none => (Except.error (JsError.raw undefinedArgsMsg), s, [])
    | some a =>
        liftOp ToolResponse.navigate
          (navigateTo s env (a.url.getD (""))
            { waitUntil := some (strOr a.waitUntil ("networkidle2")), timeout := none })
  else if name = "chrome_search" then
    match args with
    | none => (Except.error (JsError.raw undefinedArgsMsg), s, [])
    | some a => liftOp ToolResponse.searchResp (search s env (a.query.getD ("")))
  else if name = "chrome_screenshot" then
    match args with
    | none => (Except.error (JsError.raw undefinedArgsMsg), s, [])
    | some a =>
        liftOp ToolResponse.screenshot
          (takeScreenshot s env
            { imageType := none, fullPage := some (jsNotFalse a.fullPage),
              quality := some (natOr a.quality 90) })
  else if name = "chrome_get_content" then
    match args with
    | none => (Except.error (JsError.raw undefinedArgsMsg), s, [])
    | some a => liftOp ToolResponse.content (getContent s env a.selector)
  else if name = "chrome_click" then
    match args with
    | none => (Except.error (JsError.raw undefinedArgsMsg), s, [])
    | some a => liftOp ToolResponse.clicked (clickElement s env (a.selector.getD ("")))
  else if name = "chrome_type" then
    match args with
    | none => (Except.error (JsError.raw undefinedArgsMsg), s, [])
    | some a =>
        liftOp ToolResponse.typed
          (typeText s env (a.selector.getD ("")) (a.text.getD (""))
            { clear := a.clear, delay := none })
  else if name = "chrome_wait_for_element" then
    match args with
    | none => (Except.error (JsError.raw undefinedArgsMsg), s, [])
    | some a =>
        liftOp ToolResponse.waited
          (waitForElement s env (a.selector.getD ("")) (natOr a.timeout 10000))
  else if name = "chrome_scroll" then
    match args with
    | none => (Except.error (JsError.raw undefinedArgsMsg), s, [])
    | some a =>
        liftOp ToolResponse.scrolled
          (scrollPage s env
            { direction := some (strOr a.direction ("down")),
              distance := some (intOr a.distance 500),
              smooth := some (jsNotFalse a.smooth) })
  else if name = "chrome_close" then
    match close s env with
    | (Except.error e, s1, tr) => (Except.error (JsError.mcp e), s1, tr)
    | (Except.ok r, s1, tr) => (Except.ok (ToolResponse.closed r), s1, tr)
  else
    (Except.error (JsError.mcp ⟨ErrorCode.MethodNotFound, "未知的工具: " ++ name⟩), s, [])

/-- Catch block of the CallToolRequestSchema handler: an McpError is
rethrown unchanged; any other error is wrapped into an InternalError
carrying the original message. -/
def wrapToolError : JsError → McpError
  | JsError.mcp e => e
  | JsError.raw m => ⟨ErrorCode.InternalError, "工具执行失败: " ++ m⟩

/-- The CallToolRequestSchema handler: the switch inside a try whose
catch rethrows structured errors and wraps raw ones. -/
def handleCallTool (name : String) (args : Option ToolArgs) (s : ChromeState)
    (env : Env) : Except McpError ToolResponse × ChromeState × List DriverCall :=
  match dispatchBody name args s env with
  | (Except.error e, s1, tr) => (Except.error (wrapToolError e), s1, tr)
  | (Except.ok r, s1, tr) => (Except.ok r, s1, tr)

/-- A sample element for concrete runs. -/
def okElem : Elem := ⟨"sample text", "<p>sample</p>"⟩

/-- An oracle on which every driver call succeeds. -/
def okEnv : Env :=
  { closeErr := fun _ => none
    launchResult := Except.ok 7
    newPageResult := fun _ => Except.ok 8
    setUserAgentErr := none
    gotoErr := fun _ => none
    currentUrl := "https://example.com/"
    titleResult := Except.ok ("Example Title")
    waitErr := fun _ _ => none
    clickErr := fun _ => none
    evalErr := none
    typeErr := fun _ => none
    pressErr := fun _ => none
    screenshotResult := Except.ok ("IMGDATA")
    querySelector := fun _ => some okElem
    contentResult := Except.ok ("<html>page</html>")
    scrollHeight := 2400 }

/-- The state of a freshly constructed ChromeController. -/
def freshState : ChromeState := ⟨none, none, false⟩

/-- A state in which a browser and a page are live and the controller is
initialized. -/
def readyState : ChromeState := ⟨some 1, some 2, true⟩

/-- An oracle like okEnv on which page navigation rejects with a network
failure. -/
def netFailEnv : Env :=
  { okEnv with gotoErr := fun _ => some ("net::ERR_NAME_NOT_RESOLVED at https://www.bing.com") }

/-- An oracle like okEnv on which no selector matches any element. -/
def noElemEnv : Env :=
  { okEnv with querySelector := fun _ => none }

/-- A wait-for-selector oracle on which only the results-container wait
rejects, with a timeout message. -/
def waitFailErr : String → Nat → Option String := fun sel _ =>
  if sel = resultsSelector then
    some ("TimeoutError: Waiting for selector #b_results failed: 15000ms exceeded")
  else none

/-- An oracle like okEnv on which the wait for the results container
times out while every earlier step succeeds. -/
def waitFailEnv : Env :=
  { okEnv with waitErr := waitFailErr }

/-- Invariant of the session singleton: the page handle is non-null
only if the browser handle is non-null. -/
def pageOnlyWithBrowser (s : ChromeState) : Bool :=
  s.browser.isSome || !s.page.isSome

/-- The driver calls issued by a fully successful search body, in
order. -/
def searchTrace (q : String) : List DriverCall :=
  [DriverCall.goto bingUrl ("networkidle2") 30000,
   DriverCall.waitForSelector searchBoxSelector 10000,
   DriverCall.click searchBoxSelector 1,
   DriverCall.evalClearSearchBox,
   DriverCall.typeChars searchBoxSelector q none,
   DriverCall.pressKey ("Enter"),
   DriverCall.waitForSelector resultsSelector 15000]

theorem searchSteps_state (s : ChromeState) (env : Env) (q : String)
    (tr : List DriverCall) : (searchSteps s env q tr).2.1 = s := by
  unfold searchSteps
  repeat' split
  all_goals rfl

theorem searchSteps_err (s : ChromeState) (env : Env) (q : String)
    (tr : List DriverCall) (e : McpError)
    (h : (searchSteps s env q tr).1 = Except.error e) :
    e.code = ErrorCode.InternalError := by
  unfold searchSteps at h
  repeat' split at h
  all_goals simp_all [searchFail]
  all_goals rw [← h]

theorem searchSteps_ok (s : ChromeState) (env : Env) (q : String)
    (tr : List DriverCall) (r : SearchResult)
    (h : (searchSteps s env q tr).1 = Except.ok r) :
    r.success = true ∧ env.gotoErr bingUrl = none ∧
    env.waitErr searchBoxSelector 10000 = none ∧
    env.clickErr searchBoxSelector = none ∧ env.evalErr = none ∧
    env.typeErr searchBoxSelector = none ∧ env.pressErr ("Enter") = none ∧
    env.waitErr resultsSelector 15000 = none ∧
    env.titleResult = Except.ok r.title := by
  unfold searchSteps at h
  repeat' split at h
  all_goals simp_all
  rw [← h]
  exact ⟨rfl, rfl⟩

theorem searchGo_state (s : ChromeState) (env : Env) (q : String)
    (tr : List DriverCall) : (searchGo s env q tr).2.1 = s := by
  unfold searchGo
  split
  · rfl
  · exact searchSteps_state s env q tr

theorem navGoto_state (s : ChromeState) (env : Env) (url : String)
    (opts : NavOverrides) (tr : List DriverCall) :
    (navGoto s env url opts tr).2.1 = s := by
  unfold navGoto
  repeat' split
  all_goals rfl

theorem initBrowser_inv (s : ChromeState) (env : Env)
    (r : Except McpError InitResult) (s1 : ChromeState) (tr : List DriverCall)
    (h : initBrowser s env = (r, s1, tr)) (hs : pageOnlyWithBrowser s = true) :
    pageOnlyWithBrowser s1 = true := by
  unfold initBrowser initLaunchPhase at h
  repeat' split at h
  all_goals simp_all [pageOnlyWithBrowser]
  all_goals (obtain ⟨-, h2, -⟩ := h; rw [← h2]; simp_all)

theorem initLaunchPhase_trace (s : ChromeState) (env : Env)
    (tr : List DriverCall) :
    ∃ rest, (initLaunchPhase s env tr).2.2 = tr ++ (DriverCall.launch :: rest) := by
  unfold initLaunchPhase
  repeat' split
  all_goals exact ⟨_, rfl⟩

theorem takeScreenshot_state (s : ChromeState) (env : Env)
    (so : ScreenshotOverrides) : (takeScreenshot s env so).2.1 = s := by
  unfold takeScreenshot
  repeat' split
  all_goals rfl

theorem getContent_state (s : ChromeState) (env : Env) (gsel : Option String) :
    (getContent s env gsel).2.1 = s := by
  unfold getContent contentFinish
  repeat' split
  all_goals try rfl
  all_goals dsimp only
  all_goals repeat' split
  all_goals rfl

theorem clickElement_state (s : ChromeState) (env : Env) (sel : String) :
    (clickElement s env sel).2.1 = s := by
  unfold clickElement
  repeat' split
  all_goals rfl

theorem typeText_state (s : ChromeState) (env : Env) (sel txt : String)
    (topts : TypeOptions) : (typeText s env sel txt topts).2.1 = s := by
  unfold typeText typeFinish
  repeat' split
  all_goals rfl

theorem waitForElement_state (s : ChromeState) (env : Env) (sel : String)
    (tmo : Nat) : (waitForElement s env sel tmo).2.1 = s := by
  unfold waitForElement
  repeat' split
  all_goals rfl

theorem scrollPage_state (s : ChromeState) (env : Env) (sopts : ScrollOptions) :
    (scrollPage s env sopts).2.1 = s := by
  unfold scrollPage
  repeat' split
  all_goals rfl

theorem initBrowser_err (s : ChromeState) (env : Env) (e : McpError)
    (h : (initBrowser s env).1 = Except.error e) :
    e.code = ErrorCode.InternalError := by
  unfold initBrowser initLaunchPhase at h
  repeat' split at h
  all_goals simp_all
  all_goals rw [← h]

theorem navGoto_err (s : ChromeState) (env : Env) (url : String)
    (opts : NavOverrides) (tr : List DriverCall) (e : McpError)
    (h : (navGoto s env url opts tr).1 = Except.error e) :
    e.code = ErrorCode.InternalError := by
  unfold navGoto at h
  repeat' split at h
  all_goals simp_all
  all_goals rw [← h]

theorem searchGo_err (s : ChromeState) (env : Env) (q : String)
    (tr : List DriverCall) (e : McpError)
    (h : (searchGo s env q tr).1 = Except.error e) :
    e.code = ErrorCode.InternalError := by
  unfold searchGo at h
  split at h
  · injection h with h2
    rw [← h2]
    rfl
  · exact searchSteps_err _ _ _ _ _ h

theorem navigateTo_err (s : ChromeState) (env : Env) (url : String)
    (opts : NavOverrides) (e : McpError)
    (h : (navigateTo s env url opts).1 = Except.error e) :
    e.code = ErrorCode.InternalError := by
  unfold navigateTo at h
  by_cases hi2 : s.isInitialized
  · rw [if_pos hi2] at h
    exact navGoto_err _ _ _ _ _ _ h
  · rw [if_neg hi2] at h
    rcases hI : initBrowser s env with ⟨ri, si, ti⟩
    rw [hI] at h
    rcases ri with ei | ri
    · injection h with h2
      subst h2
      exact initBrowser_err s env _ (by rw [hI])
    · exact navGoto_err _ _ _ _ _ _ h

theorem search_err (s : ChromeState) (env : Env) (q : String) (e : McpError)
    (h : (search s env q).1 = Except.error e) :
    e.code = ErrorCode.InternalError := by
  unfold search at h
  by_cases hi2 : s.isInitialized
  · rw [if_pos hi2] at h
    exact searchGo_err _ _ _ _ _ h
  · rw [if_neg hi2] at h
    rcases hI : initBrowser s env with ⟨ri, si, ti⟩
    rw [hI] at h
    rcases ri with ei | ri
    · injection h with h2
      subst h2
      exact initBrowser_err s env _ (by rw [hI])
    · exact searchGo_err _ _ _ _ _ h

theorem navigateTo_fresh (env : Env) (url : String) (opts : NavOverrides)
    (b p : Nat) (t : String)
    (hL : env.launchResult = Except.ok b) (hP : env.newPageResult b = Except.ok p)
    (hU : env.setUserAgentErr = none) (hG : env.gotoErr url = none)
    (hT : env.titleResult = Except.ok t) :
    navigateTo freshState env url opts =
      (Except.ok ⟨true, env.currentUrl, t, "成功导航到: " ++ url⟩,
        ⟨some b, some p, true⟩,
        [DriverCall.launch, DriverCall.newPage, DriverCall.setUserAgent userAgentString,
         DriverCall.goto url (opts.waitUntil.getD ("networkidle2"))
           (opts.timeout.getD 30000)]) := by
  simp [navigateTo, freshState, initBrowser, initLaunchPhase, navGoto, hL, hP, hU, hG, hT]

theorem search_fresh (env : Env) (q : String) (b p : Nat) (t : String)
    (hL : env.launchResult = Except.ok b) (hP : env.newPageResult b = Except.ok p)
    (hU : env.setUserAgentErr = none)
    (hGb : env.gotoErr bingUrl = none)
    (hW1 : env.waitErr searchBoxSelector 10000 = none)
    (hCk : env.clickErr searchBoxSelector = none) (hEv : env.evalErr = none)
    (hTy : env.typeErr searchBoxSelector = none)
    (hPr : env.pressErr ("Enter") = none)
    (hW2 : env.waitErr resultsSelector 15000 = none)
    (hT : env.titleResult = Except.ok t) :
    search freshState env q =
      (Except.ok ⟨true, q, env.currentUrl, t, "已在Bing中搜索\"" ++ q ++ "\"，结果已加载"⟩,
        ⟨some b, some p, true⟩,
        [DriverCall.launch, DriverCall.newPage,
          DriverCall.setUserAgent userAgentString] ++ searchTrace q) := by
  simp [search, freshState, initBrowser, initLaunchPhase, searchGo, searchSteps,
    searchTrace, hL, hP, hU, hGb, hW1, hCk, hEv, hTy, hPr, hW2, hT]

/-- C3: in every state whose page handle is null, each of
takeScreenshot, getContent, clickElement, typeText, waitForElement and
scrollPage raises the structured invalid-request error (not an
internal error and not a crash) and leaves the session state
unchanged. -/
theorem noPage_actions_invalid_request (s : ChromeState) (env : Env)
    (hp : s.page = none) (so : ScreenshotOverrides) (gsel : Option String)
    (csel tsel wsel txt : String) (topts : TypeOptions) (tmo : Nat)
    (sopts : ScrollOptions) :
    takeScreenshot s env so =
      (Except.error ⟨ErrorCode.InvalidRequest, "浏览器未初始化"⟩, s, []) ∧
    getContent s env gsel =
      (Except.error ⟨ErrorCode.InvalidRequest, "浏览器未初始化"⟩, s, []) ∧
    clickElement s env csel =
      (Except.error ⟨ErrorCode.InvalidRequest, "浏览器未初始化"⟩, s, []) ∧
    typeText s env tsel txt topts =
      (Except.error ⟨ErrorCode.InvalidRequest, "浏览器未初始化"⟩, s, []) ∧
    waitForElement s env wsel tmo =
      (Except.error ⟨ErrorCode.InvalidRequest, "浏览器未初始化"⟩, s, []) ∧
    scrollPage s env sopts =
      (Except.error ⟨ErrorCode.InvalidRequest, "浏览器未初始化"⟩, s, []) := by
  unfold takeScreenshot getContent clickElement typeText waitForElement scrollPage
  rw [hp]
  exact ⟨rfl, rfl, rfl, rfl, rfl, rfl⟩

/-- Witness for C3 at the freshly constructed controller state. -/
theorem noPage_actions_invalid_request_witness :
    freshState.page = none ∧
    takeScreenshot freshState okEnv {} =
      (Except.error ⟨ErrorCode.InvalidRequest, "浏览器未初始化"⟩, freshState, []) :=
  ⟨rfl, (noPage_actions_invalid_request freshState okEnv rfl {} none ("a") ("b")
    ("c") ("x") {} 5 {}).1⟩

/-- C7: the evaluated scroll script performs a relative scroll by plus
or minus the distance for directions down and up, an absolute scroll to
offset 0 for direction top (for every supplied distance), and an
absolute scroll to the full document height for direction bottom; the
smooth flag only selects the smooth-behavior option; and scrollPage
evaluates exactly this script against the current page. -/
theorem scrollPage_directions (s : ChromeState) (env : Env) (p : Nat)
    (hp : s.page = some p) (d : Int) (sm : Bool) (opts : ScrollOptions) :
    scrollScript ("down") d sm env.scrollHeight = ScrollCommand.scrollBy d sm ∧
    scrollScript ("up") d sm env.scrollHeight = ScrollCommand.scrollBy (-d) sm ∧
    scrollScript ("top") d sm env.scrollHeight = ScrollCommand.scrollTo 0 sm ∧
    scrollScript ("bottom") d sm env.scrollHeight =
      ScrollCommand.scrollTo env.scrollHeight sm ∧
    (scrollPage s env
        { direction := some ("top"), distance := some d, smooth := some sm }).2.2 =
      [DriverCall.evalScroll (ScrollCommand.scrollTo 0 sm)] ∧
    (scrollPage s env opts).2.2 =
      [DriverCall.evalScroll (scrollScript (opts.direction.getD ("down"))
        (opts.distance.getD 500) (opts.smooth.getD true) env.scrollHeight)] := by
  refine ⟨by simp [scrollScript], by simp [scrollScript], by simp [scrollScript],
    by simp [scrollScript], ?_, ?_⟩
  · simp only [scrollPage, hp]
    cases env.evalErr <;> simp [scrollScript]
  · simp only [scrollPage, hp]
    cases env.evalErr <;> simp

/-- Witness for C7 on the live state: direction top with a nonzero
distance still scrolls to offset 0. -/
theorem scrollPage_directions_witness :
    readyState.page = some 2 ∧
    (scrollPage readyState okEnv
        { direction := some ("top"), distance := some 999, smooth := some true }).2.2 =
      [DriverCall.evalScroll (ScrollCommand.scrollTo 0 true)] :=
  ⟨rfl, (scrollPage_directions readyState okEnv 2 rfl 999 true {}).2.2.2.2.1⟩

/-- C9: with a (truthy) selector, getContent returns the first matched
element's text content, falling back to that element's markup when the
text is empty; with no selector it returns the full page markup; and
with a selector that matches no element it raises an internal-error
(not an invalid-request error). -/
theorem getContent_selector_semantics (s : ChromeState) (env : Env) (p : Nat)
    (hp : s.page = some p) (sel : String) (hsel : sel ≠ "") (el : Elem)
    (t : String) (hT : env.titleResult = Except.ok t) :
    (env.querySelector sel = some el →
      (getContent s env (some sel)).1 =
        Except.ok ⟨true, if el.textContent = "" then el.innerHTML else el.textContent,
          env.currentUrl, t, "页面内容获取完成"⟩) ∧
    (∀ c, env.contentResult = Except.ok c →
      (getContent s env none).1 =
        Except.ok ⟨true, c, env.currentUrl, t, "页面内容获取完成"⟩) ∧
    (env.querySelector sel = none →
      (getContent s env (some sel)).1 =
        Except.error ⟨ErrorCode.InternalError,
          "获取内容失败: Error: failed to find element matching selector " ++ sel⟩) := by
  refine ⟨fun hq => ?_, fun c hc => ?_, fun hq => ?_⟩
  · simp [getContent, hp, strTruthy, hsel, hq, contentFinish, hT]
  · simp [getContent, hp, strTruthy, hc, contentFinish, hT]
  · simp [getContent, hp, strTruthy, hsel, hq]

/-- Witness for C9: a matched element with nonempty text, the full-page
branch, and a missing selector on the no-element oracle. -/
theorem getContent_selector_semantics_witness :
    (okEnv.querySelector ("#main") = some okElem ∧
      (getContent readyState okEnv (some ("#main"))).1 =
        Except.ok ⟨true, "sample text", "https://example.com/", "Example Title",
          "页面内容获取完成"⟩) ∧
    (okEnv.contentResult = Except.ok ("<html>page</html>") ∧
      (getContent readyState okEnv none).1 =
        Except.ok ⟨true, "<html>page</html>", "https://example.com/", "Example Title",
          "页面内容获取完成"⟩) ∧
    (noElemEnv.querySelector ("#missing") = none ∧
      (getContent readyState noElemEnv (some ("#missing"))).1 =
        Except.error ⟨ErrorCode.InternalError,
          "获取内容失败: Error: failed to find element matching selector #missing"⟩) := by
  refine ⟨⟨rfl, ?_⟩, ⟨rfl, ?_⟩, ⟨rfl, ?_⟩⟩
  · exact (getContent_selector_semantics readyState okEnv 2 rfl ("#main")
      (by decide) okElem ("Example Title") rfl).1 rfl
  · exact (getContent_selector_semantics readyState okEnv 2 rfl ("#main")
      (by decide) okElem ("Example Title") rfl).2.1 ("<html>page</html>") rfl
  · exact (getContent_selector_semantics readyState noElemEnv 2 rfl ("#missing")
      (by decide) okElem ("Example Title") rfl).2.2 rfl

/-- C10: in call-tool dispatch an explicitly supplied falsy numeric
argument is indistinguishable from an absent one: chrome_screenshot
with quality 0 behaves exactly as with quality absent and invokes
takeScreenshot with the default quality 90; chrome_scroll with
distance 0 invokes scrollPage with distance 500; chrome_wait_for_element
with timeout 0 invokes waitForElement with timeout 10000. -/
theorem dispatch_falsy_defaults (s : ChromeState) (env : Env) (a : ToolArgs) :
    handleCallTool ("chrome_screenshot") (some { a with quality := some 0 }) s env =
      handleCallTool ("chrome_screenshot") (some { a with quality := none }) s env ∧
    handleCallTool ("chrome_scroll") (some { a with distance := some 0 }) s env =
      handleCallTool ("chrome_scroll") (some { a with distance := none }) s env ∧
    handleCallTool ("chrome_wait_for_element") (some { a with timeout := some 0 }) s env =
      handleCallTool ("chrome_wait_for_element") (some { a with timeout := none }) s env ∧
    dispatchBody ("chrome_screenshot") (some { a with quality := some 0 }) s env =
      liftOp ToolResponse.screenshot (takeScreenshot s env
        { imageType := none, fullPage := some (jsNotFalse a.fullPage),
          quality := some 90 }) ∧
    dispatchBody ("chrome_scroll") (some { a with distance := some 0 }) s env =
      liftOp ToolResponse.scrolled (scrollPage s env
        { direction := some (strOr a.direction ("down")), distance := some 500,
          smooth := some (jsNotFalse a.smooth) }) ∧
    dispatchBody ("chrome_wait_for_element") (some { a with timeout := some 0 }) s env =
      liftOp ToolResponse.waited
        (waitForElement s env (a.selector.getD ("")) 10000) :=
  ⟨rfl, rfl, rfl, rfl, rfl, rfl⟩

/-- C6: every session-manager operation preserves the invariant that
the page handle is non-null only if the browser handle is non-null, so
the session stays a consistent singleton resource; and initialize
called while a browser handle exists closes that handle first — its
first driver call is the close of the old handle, and the launch of the
new browser comes only after it — so at most one live browser handle
exists at any time. -/
theorem session_singleton_invariant (s : ChromeState) (env : Env)
    (hs : pageOnlyWithBrowser s = true) (url q csel tsel wsel txt : String)
    (nopts : NavOverrides) (so : ScreenshotOverrides) (gsel : Option String)
    (topts : TypeOptions) (tmo : Nat) (sopts : ScrollOptions) :
    pageOnlyWithBrowser (initBrowser s env).2.1 = true ∧
    pageOnlyWithBrowser (navigateTo s env url nopts).2.1 = true ∧
    pageOnlyWithBrowser (search s env q).2.1 = true ∧
    pageOnlyWithBrowser (takeScreenshot s env so).2.1 = true ∧
    pageOnlyWithBrowser (getContent s env gsel).2.1 = true ∧
    pageOnlyWithBrowser (clickElement s env csel).2.1 = true ∧
    pageOnlyWithBrowser (typeText s env tsel txt topts).2.1 = true ∧
    pageOnlyWithBrowser (waitForElement s env wsel tmo).2.1 = true ∧
    pageOnlyWithBrowser (scrollPage s env sopts).2.1 = true ∧
    pageOnlyWithBrowser (close s env).2.1 = true ∧
    (∀ b, s.browser = some b →
      (initBrowser s env).2.2.head? = some (DriverCall.browserClose b)) ∧
    (∀ b, s.browser = some b → env.closeErr b = none →
      ∃ t, (initBrowser s env).2.2 =
        DriverCall.browserClose b :: DriverCall.launch :: t) := by
  refine ⟨initBrowser_inv s env _ _ _ rfl hs, ?_, ?_, ?_, ?_, ?_, ?_, ?_, ?_, ?_, ?_, ?_⟩
  · unfold navigateTo
    split
    · rw [navGoto_state]
      exact hs
    · split <;> rename_i a b c h
      · exact initBrowser_inv s env _ _ _ h hs
      · rw [navGoto_state]
        exact initBrowser_inv s env _ _ _ h hs
  · unfold search
    split
    · rw [searchGo_state]
      exact hs
    · split <;> rename_i a b c h
      · exact initBrowser_inv s env _ _ _ h hs
      · rw [searchGo_state]
        exact initBrowser_inv s env _ _ _ h hs
  · rw [takeScreenshot_state]
    exact hs
  · rw [getContent_state]
    exact hs
  · rw [clickElement_state]
    exact hs
  · rw [typeText_state]
    exact hs
  · rw [waitForElement_state]
    exact hs
  · rw [scrollPage_state]
    exact hs
  · unfold close
    repeat' split
    all_goals simp_all [pageOnlyWithBrowser]
  · intro b hb
    obtain ⟨rest, hr⟩ := initLaunchPhase_trace s env [DriverCall.browserClose b]
    simp only [initBrowser, hb]
    cases hc2 : env.closeErr b <;> simp [hc2, hr]
  · intro b hb hc
    obtain ⟨rest, hr⟩ := initLaunchPhase_trace s env [DriverCall.browserClose b]
    refine ⟨rest, ?_⟩
    simp only [initBrowser, hb, hc]
    simpa using hr

/-- Witness for C6: the invariant at the live state is preserved by
close, and re-initialization on the live state closes browser handle 1
before launching. -/
theorem session_singleton_invariant_witness :
    pageOnlyWithBrowser readyState = true ∧
    pageOnlyWithBrowser (close readyState okEnv).2.1 = true ∧
    readyState.browser = some 1 ∧
    (initBrowser readyState okEnv).2.2.head? = some (DriverCall.browserClose 1) := by
  have h := session_singleton_invariant readyState okEnv rfl ("u") ("q") ("c")
    ("t") ("w") ("x") {} {} none {} 5 {}
  exact ⟨rfl, h.2.2.2.2.2.2.2.2.2.1, rfl, h.2.2.2.2.2.2.2.2.2.2.1 1 rfl⟩

/-- C2 (amended): every session-manager operation that returns without
raising yields an envelope with success = true (and a message field, by
the envelope shape) — except close when no browser handle exists, which
returns without raising but yields undefined, no envelope at all; close
with a live browser handle does return the success envelope. -/
theorem success_envelopes (s : ChromeState) (env : Env)
    (url q csel tsel wsel txt : String) (nopts : NavOverrides)
    (so : ScreenshotOverrides) (gsel : Option String) (topts : TypeOptions)
    (tmo : Nat) (sopts : ScrollOptions) :
    (∀ r, (initBrowser s env).1 = Except.ok r → r.success = true) ∧
    (∀ r, (navigateTo s env url nopts).1 = Except.ok r → r.success = true) ∧
    (∀ r, (search s env q).1 = Except.ok r → r.success = true) ∧
    (∀ r, (takeScreenshot s env so).1 = Except.ok r → r.success = true) ∧
    (∀ r, (getContent s env gsel).1 = Except.ok r → r.success = true) ∧
    (∀ r, (clickElement s env csel).1 = Except.ok r → r.success = true) ∧
    (∀ r, (typeText s env tsel txt topts).1 = Except.ok r → r.success = true) ∧
    (∀ r, (waitForElement s env wsel tmo).1 = Except.ok r → r.success = true) ∧
    (∀ r, (scrollPage s env sopts).1 = Except.ok r → r.success = true) ∧
    (∀ r, (close s env).1 = Except.ok (some r) → r.success = true) ∧
    (s.browser = none → close s env = (Except.ok none, s, [])) := by
  refine ⟨?_, ?_, ?_, ?_, ?_, ?_, ?_, ?_, ?_, ?_, ?_⟩
  · intro r h
    unfold initBrowser initLaunchPhase at h
    repeat' split at h
    all_goals simp_all
    all_goals rw [← h]
  · intro r h
    unfold navigateTo initBrowser initLaunchPhase navGoto at h
    repeat' split at h
    all_goals simp_all
    all_goals rw [← h]
  · intro r h
    unfold search searchGo searchSteps initBrowser initLaunchPhase at h
    repeat' split at h
    all_goals simp_all
    all_goals rw [← h]
  · intro r h
    unfold takeScreenshot at h
    repeat' split at h
    all_goals simp_all
    all_goals rw [← h]
  · intro r h
    unfold getContent contentFinish at h
    repeat' split at h
    all_goals simp_all
    all_goals (repeat' split at h)
    all_goals first | (rw [← h]) | (simp_all <;> rw [← h])
  · intro r h
    unfold clickElement at h
    repeat' split at h
    all_goals simp_all
    all_goals rw [← h]
  · intro r h
    unfold typeText typeFinish at h
    repeat' split at h
    all_goals simp_all
    all_goals rw [← h]
  · intro r h
    unfold waitForElement at h
    repeat' split at h
    all_goals simp_all
    all_goals rw [← h]
  · intro r h
    unfold scrollPage at h
    repeat' split at h
    all_goals simp_all
    all_goals rw [← h]
  · intro r h
    unfold close at h
    repeat' split at h
    all_goals simp_all
    all_goals rw [← h]
  · intro hb
    simp [close, hb]

/-- C2 counterexample: close on a state with no browser handle succeeds
but returns undefined, which is no envelope — in particular it is not
the closed-browser success envelope. -/
theorem close_no_browser_no_envelope :
    (close freshState okEnv).1 = Except.ok none ∧
    (close freshState okEnv).1 ≠ Except.ok (some ⟨true, "浏览器已关闭"⟩) := by
  exact ⟨rfl, by decide⟩

/-- Witness for C2: a successful screenshot carries success = true, and
close on the fresh state returns undefined. -/
theorem success_envelopes_witness :
    (takeScreenshot readyState okEnv {}).1 =
      Except.ok ⟨true, "data:image/png;base64,IMGDATA", "页面截图完成"⟩ ∧
    (⟨true, "data:image/png;base64,IMGDATA", "页面截图完成"⟩ :
        ScreenshotResult).success = true ∧
    freshState.browser = none ∧
    close freshState okEnv = (Except.ok none, freshState, []) := by
  have h1 := success_envelopes readyState okEnv ("u") ("q") ("c") ("t") ("w")
    ("x") {} {} none {} 5 {}
  have h2 := success_envelopes freshState okEnv ("u") ("q") ("c") ("t") ("w")
    ("x") {} {} none {} 5 {}
  exact ⟨by decide, h1.2.2.2.1 _ (by decide), rfl,
    h2.2.2.2.2.2.2.2.2.2.2 rfl⟩

/-- C4: navigateTo and search called with the initialized flag false
first perform the implicit initialize and then proceed with the
navigation against the fresh session (the trace is the initialize trace
followed by the navigation calls); and for no state, oracle or input
does navigateTo or search fail with an invalid-request (not
initialized) error. -/
theorem navigateTo_lazy_init (s : ChromeState) (env : Env) (url q : String)
    (opts : NavOverrides) (b p : Nat) (t : String)
    (hi : s.isInitialized = false)
    (hC : ∀ b0, s.browser = some b0 → env.closeErr b0 = none)
    (hL : env.launchResult = Except.ok b) (hP : env.newPageResult b = Except.ok p)
    (hU : env.setUserAgentErr = none) (hG : env.gotoErr url = none)
    (hT : env.titleResult = Except.ok t)
    (hGb : env.gotoErr bingUrl = none)
    (hW1 : env.waitErr searchBoxSelector 10000 = none)
    (hCk : env.clickErr searchBoxSelector = none) (hEv : env.evalErr = none)
    (hTy : env.typeErr searchBoxSelector = none)
    (hPr : env.pressErr ("Enter") = none)
    (hW2 : env.waitErr resultsSelector 15000 = none) :
    navigateTo s env url opts =
      (Except.ok ⟨true, env.currentUrl, t, "成功导航到: " ++ url⟩,
        { s with browser := some b, page := some p, isInitialized := true },
        (initBrowser s env).2.2 ++
          [DriverCall.goto url (opts.waitUntil.getD ("networkidle2"))
            (opts.timeout.getD 30000)]) ∧
    search s env q =
      (Except.ok ⟨true, q, env.currentUrl, t, "已在Bing中搜索\"" ++ q ++ "\"，结果已加载"⟩,
        { s with browser := some b, page := some p, isInitialized := true },
        (initBrowser s env).2.2 ++ searchTrace q) ∧
    (∀ (s2 : ChromeState) (env2 : Env) (e : McpError),
      (navigateTo s2 env2 url opts).1 = Except.error e →
        e.code ≠ ErrorCode.InvalidRequest) ∧
    (∀ (s2 : ChromeState) (env2 : Env) (e : McpError),
      (search s2 env2 q).1 = Except.error e →
        e.code ≠ ErrorCode.InvalidRequest) := by
  refine ⟨?_, ?_, ?_, ?_⟩
  · rcases hbb : s.browser with _ | b0
    · simp [navigateTo, initBrowser, initLaunchPhase, navGoto, hi, hbb,
        hL, hP, hU, hG, hT]
    · have hc := hC b0 hbb
      simp [navigateTo, initBrowser, initLaunchPhase, navGoto, hi, hbb, hc,
        hL, hP, hU, hG, hT]
  · rcases hbb : s.browser with _ | b0
    · simp [search, initBrowser, initLaunchPhase, searchGo, searchSteps,
        searchTrace, hi, hbb, hL, hP, hU, hGb, hW1, hCk, hEv, hTy, hPr, hW2, hT]
    · have hc := hC b0 hbb
      simp [search, initBrowser, initLaunchPhase, searchGo, searchSteps,
        searchTrace, hi, hbb, hc, hL, hP, hU, hGb, hW1, hCk, hEv, hTy, hPr,
        hW2, hT]
  · intro s2 env2 e h
    rw [navigateTo_err s2 env2 url opts e h]
    decide
  · intro s2 env2 e h
    rw [search_err s2 env2 q e h]
    decide

/-- Witness for C4: navigateTo on the fresh (never initialized) state
launches a browser, opens a page and then navigates. -/
theorem navigateTo_lazy_init_witness :
    freshState.isInitialized = false ∧
    navigateTo freshState okEnv ("https://a.example/") {} =
      (Except.ok ⟨true, "https://example.com/", "Example Title",
        "成功导航到: https://a.example/"⟩,
        ⟨some 7, some 8, true⟩,
        [DriverCall.launch, DriverCall.newPage,
         DriverCall.setUserAgent userAgentString,
         DriverCall.goto ("https://a.example/") ("networkidle2") 30000]) := by
  have h := navigateTo_lazy_init freshState okEnv ("https://a.example/") ("q")
    {} 7 8 ("Example Title") rfl (fun _ hb => Option.noConfusion hb) rfl rfl
    rfl rfl rfl rfl rfl rfl rfl rfl rfl rfl
  exact ⟨rfl, h.1⟩

/-- C8: search runs, in order, the navigation to the Bing homepage, the
10000ms wait for the search-input selector, the click and clearing of
the input, the typing of the query, the Enter submission, and the
15000ms wait for the results container; a success envelope is returned
only if every step succeeded (and it carries the real url and title,
not null fields); any failure raises an internal-error; and the failure
of each individual step — navigation, search-box wait, click, clearing
evaluation, typing, Enter press, results wait — raises the
internal-error whose message carries that step's underlying message. -/
theorem search_step_sequence (s : ChromeState) (env : Env) (q : String)
    (p : Nat) (hi : s.isInitialized = true) (hp : s.page = some p) :
    (∀ t, env.gotoErr bingUrl = none →
      env.waitErr searchBoxSelector 10000 = none →
      env.clickErr searchBoxSelector = none → env.evalErr = none →
      env.typeErr searchBoxSelector = none → env.pressErr ("Enter") = none →
      env.waitErr resultsSelector 15000 = none →
      env.titleResult = Except.ok t →
      search s env q =
        (Except.ok ⟨true, q, env.currentUrl, t,
          "已在Bing中搜索\"" ++ q ++ "\"，结果已加载"⟩, s, searchTrace q)) ∧
    (∀ r, (search s env q).1 = Except.ok r →
      r.success = true ∧ env.gotoErr bingUrl = none ∧
      env.waitErr searchBoxSelector 10000 = none ∧
      env.clickErr searchBoxSelector = none ∧ env.evalErr = none ∧
      env.typeErr searchBoxSelector = none ∧ env.pressErr ("Enter") = none ∧
      env.waitErr resultsSelector 15000 = none ∧
      env.titleResult = Except.ok r.title) ∧
    (∀ e, (search s env q).1 = Except.error e →
      e.code = ErrorCode.InternalError) ∧
    (∀ m, env.gotoErr bingUrl = some m →
      (search s env q).1 =
        Except.error ⟨ErrorCode.InternalError, "搜索失败: " ++ m⟩) ∧
    (∀ m, env.gotoErr bingUrl = none →
      env.waitErr searchBoxSelector 10000 = some m →
      (search s env q).1 =
        Except.error ⟨ErrorCode.InternalError, "搜索失败: " ++ m⟩) ∧
    (∀ m, env.gotoErr bingUrl = none →
      env.waitErr searchBoxSelector 10000 = none →
      env.clickErr searchBoxSelector = some m →
      (search s env q).1 =
        Except.error ⟨ErrorCode.InternalError, "搜索失败: " ++ m⟩) ∧
    (∀ m, env.gotoErr bingUrl = none →
      env.waitErr searchBoxSelector 10000 = none →
      env.clickErr searchBoxSelector = none → env.evalErr = some m →
      (search s env q).1 =
        Except.error ⟨ErrorCode.InternalError, "搜索失败: " ++ m⟩) ∧
    (∀ m, env.gotoErr bingUrl = none →
      env.waitErr searchBoxSelector 10000 = none →
      env.clickErr searchBoxSelector = none → env.evalErr = none →
      env.typeErr searchBoxSelector = some m →
      (search s env q).1 =
        Except.error ⟨ErrorCode.InternalError, "搜索失败: " ++ m⟩) ∧
    (∀ m, env.gotoErr bingUrl = none →
      env.waitErr searchBoxSelector 10000 = none →
      env.clickErr searchBoxSelector = none → env.evalErr = none →
      env.typeErr searchBoxSelector = none → env.pressErr ("Enter") = some m →
      (search s env q).1 =
        Except.error ⟨ErrorCode.InternalError, "搜索失败: " ++ m⟩) ∧
    (∀ m, env.gotoErr bingUrl = none →
      env.waitErr searchBoxSelector 10000 = none →
      env.clickErr searchBoxSelector = none → env.evalErr = none →
      env.typeErr searchBoxSelector = none → env.pressErr ("Enter") = none →
      env.waitErr resultsSelector 15000 = some m →
      (search s env q).1 =
        Except.error ⟨ErrorCode.InternalError, "搜索失败: " ++ m⟩) := by
  refine ⟨?_, ?_, ?_, ?_, ?_, ?_, ?_, ?_, ?_, ?_⟩
  · intro t h1 h2 h3 h4 h5 h6 h7 h8
    simp [search, hi, searchGo, hp, searchSteps, searchTrace,
      h1, h2, h3, h4, h5, h6, h7, h8]
  · intro r h
    simp only [search, hi, if_true, searchGo, hp] at h
    exact searchSteps_ok s env q [] r h
  · intro e h
    simp only [search, hi, if_true, searchGo, hp] at h
    exact searchSteps_err s env q [] e h
  · intro m hm
    simp [search, hi, searchGo, hp, searchSteps, searchFail, hm]
  · intro m h1 hm
    simp [search, hi, searchGo, hp, searchSteps, searchFail, h1, hm]
  · intro m h1 h2 hm
    simp [search, hi, searchGo, hp, searchSteps, searchFail, h1, h2, hm]
  · intro m h1 h2 h3 hm
    simp [search, hi, searchGo, hp, searchSteps, searchFail, h1, h2, h3, hm]
  · intro m h1 h2 h3 h4 hm
    simp [search, hi, searchGo, hp, searchSteps, searchFail, h1, h2, h3, h4, hm]
  · intro m h1 h2 h3 h4 h5 hm
    simp [search, hi, searchGo, hp, searchSteps, searchFail, h1, h2, h3, h4,
      h5, hm]
  · intro m h1 h2 h3 h4 h5 h6 hm
    simp [search, hi, searchGo, hp, searchSteps, searchFail, h1, h2, h3, h4,
      h5, h6, hm]

/-- Witness for C8: the full successful sequence on the live state; a
mid-navigation network failure surfacing as an internal-error whose
message carries the failure text; and a results-wait timeout surfacing
as an internal-error whose message carries the timeout text. -/
theorem search_step_sequence_witness :
    readyState.isInitialized = true ∧
    search readyState okEnv ("test") =
      (Except.ok ⟨true, "test", "https://example.com/", "Example Title",
        "已在Bing中搜索\"test\"，结果已加载"⟩, readyState, searchTrace ("test")) ∧
    netFailEnv.gotoErr bingUrl =
      some ("net::ERR_NAME_NOT_RESOLVED at https://www.bing.com") ∧
    (search readyState netFailEnv ("test")).1 =
      Except.error ⟨ErrorCode.InternalError,
        "搜索失败: net::ERR_NAME_NOT_RESOLVED at https://www.bing.com"⟩ ∧
    waitFailEnv.waitErr resultsSelector 15000 =
      some ("TimeoutError: Waiting for selector #b_results failed: 15000ms exceeded") ∧
    (search readyState waitFailEnv ("test")).1 =
      Except.error ⟨ErrorCode.InternalError,
        "搜索失败: TimeoutError: Waiting for selector #b_results failed: 15000ms exceeded"⟩ := by
  refine ⟨rfl, ?_, rfl, ?_, by decide, ?_⟩
  · exact (search_step_sequence readyState okEnv ("test") 2 rfl rfl).1
      ("Example Title") rfl rfl rfl rfl rfl rfl rfl rfl
  · exact (search_step_sequence readyState netFailEnv ("test") 2 rfl rfl).2.2.2.1
      _ rfl
  · exact (search_step_sequence readyState waitFailEnv ("test") 2 rfl
      rfl).2.2.2.2.2.2.2.2.2 _ (by decide) (by decide) (by decide) rfl
      (by decide) (by decide) (by decide)

/-- C1 counterexample: after a successful close, takeScreenshot does not
re-initialize a fresh session: it raises the invalid-request error and
issues no driver call at all. -/
theorem close_then_screenshot_fails :
    (close readyState okEnv).1 = Except.ok (some ⟨true, "浏览器已关闭"⟩) ∧
    takeScreenshot (close readyState okEnv).2.1 okEnv {} =
      (Except.error ⟨ErrorCode.InvalidRequest, "浏览器未初始化"⟩,
        ⟨none, none, false⟩, []) := by
  exact ⟨rfl, rfl⟩

/-- C1 (amended): after a successful close the state is the fresh one;
navigateTo and search then re-initialize a fresh session and proceed,
while the six page-bound action operations (takeScreenshot, getContent,
clickElement, typeText, waitForElement, scrollPage) instead fail with
the invalid-request error on the closed state. -/
theorem close_then_actions (s : ChromeState) (env : Env) (b0 : Nat)
    (hb : s.browser = some b0) (hc : env.closeErr b0 = none)
    (url q csel tsel wsel txt : String) (b p : Nat) (t : String)
    (hL : env.launchResult = Except.ok b) (hP : env.newPageResult b = Except.ok p)
    (hU : env.setUserAgentErr = none) (hG : env.gotoErr url = none)
    (hT : env.titleResult = Except.ok t)
    (hGb : env.gotoErr bingUrl = none)
    (hW1 : env.waitErr searchBoxSelector 10000 = none)
    (hCk : env.clickErr searchBoxSelector = none) (hEv : env.evalErr = none)
    (hTy : env.typeErr searchBoxSelector = none)
    (hPr : env.pressErr ("Enter") = none)
    (hW2 : env.waitErr resultsSelector 15000 = none)
    (so : ScreenshotOverrides) (gsel : Option String) (topts : TypeOptions)
    (tmo : Nat) (sopts : ScrollOptions) :
    (close s env).2.1 = freshState ∧
    navigateTo freshState env url {} =
      (Except.ok ⟨true, env.currentUrl, t, "成功导航到: " ++ url⟩,
        ⟨some b, some p, true⟩,
        [DriverCall.launch, DriverCall.newPage,
         DriverCall.setUserAgent userAgentString,
         DriverCall.goto url ("networkidle2") 30000]) ∧
    search freshState env q =
      (Except.ok ⟨true, q, env.currentUrl, t,
        "已在Bing中搜索\"" ++ q ++ "\"，结果已加载"⟩,
        ⟨some b, some p, true⟩,
        [DriverCall.launch, DriverCall.newPage,
         DriverCall.setUserAgent userAgentString] ++ searchTrace q) ∧
    takeScreenshot freshState env so =
      (Except.error ⟨ErrorCode.InvalidRequest, "浏览器未初始化"⟩, freshState, []) ∧
    getContent freshState env gsel =
      (Except.error ⟨ErrorCode.InvalidRequest, "浏览器未初始化"⟩, freshState, []) ∧
    clickElement freshState env csel =
      (Except.error ⟨ErrorCode.InvalidRequest, "浏览器未初始化"⟩, freshState, []) ∧
    typeText freshState env tsel txt topts =
      (Except.error ⟨ErrorCode.InvalidRequest, "浏览器未初始化"⟩, freshState, []) ∧
    waitForElement freshState env wsel tmo =
      (Except.error ⟨ErrorCode.InvalidRequest, "浏览器未初始化"⟩, freshState, []) ∧
    scrollPage freshState env sopts =
      (Except.error ⟨ErrorCode.InvalidRequest, "浏览器未初始化"⟩, freshState, []) := by
  refine ⟨by simp [close, hb, hc, freshState], ?_, ?_, rfl, rfl, rfl, rfl, rfl, rfl⟩
  · exact navigateTo_fresh env url {} b p t hL hP hU hG hT
  · exact search_fresh env q b p t hL hP hU hGb hW1 hCk hEv hTy hPr hW2 hT

/-- Witness for C1 on the live state and the all-success oracle. -/
theorem close_then_actions_witness :
    readyState.browser = some 1 ∧
    (close readyState okEnv).2.1 = freshState ∧
    navigateTo freshState okEnv ("https://b.example/") {} =
      (Except.ok ⟨true, "https://example.com/", "Example Title",
        "成功导航到: https://b.example/"⟩,
        ⟨some 7, some 8, true⟩,
        [DriverCall.launch, DriverCall.newPage,
         DriverCall.setUserAgent userAgentString,
         DriverCall.goto ("https://b.example/") ("networkidle2") 30000]) ∧
    takeScreenshot freshState okEnv {} =
      (Except.error ⟨ErrorCode.InvalidRequest, "浏览器未初始化"⟩, freshState, []) := by
  have h := close_then_actions readyState okEnv 1 rfl rfl ("https://b.example/")
    ("q") ("c") ("t") ("w") ("x") 7 8 ("Example Title") rfl rfl rfl rfl rfl rfl
    rfl rfl rfl rfl rfl rfl {} none {} 5 {}
  exact ⟨rfl, h.1, h.2.1, h.2.2.2.1⟩

/-- C5: call-tool dispatch maps an unknown tool name to the
method-not-found error (not internal-error); a structured McpError
raised inside the switch propagates to the caller unchanged; and a raw
(non-structured) error is wrapped into an internal-error whose message
carries the original message after the fixed prefix. -/
theorem dispatch_error_contract (name : String) (args : Option ToolArgs)
    (s s1 : ChromeState) (env : Env) (e : McpError) (m : String)
    (tr : List DriverCall) :
    (name ∉ knownToolNames →
      handleCallTool name args s env =
        (Except.error ⟨ErrorCode.MethodNotFound, "未知的工具: " ++ name⟩, s, [])) ∧
    (dispatchBody name args s env = (Except.error (JsError.mcp e), s1, tr) →
      handleCallTool name args s env = (Except.error e, s1, tr)) ∧
    (dispatchBody name args s env = (Except.error (JsError.raw m), s1, tr) →
      handleCallTool name args s env =
        (Except.error ⟨ErrorCode.InternalError, "工具执行失败: " ++ m⟩, s1, tr)) := by
  refine ⟨fun hn => ?_, fun hd => ?_, fun hd => ?_⟩
  · simp only [knownToolNames, List.mem_cons, List.mem_singleton, not_or,
      List.not_mem_nil] at hn
    obtain ⟨h1, h2, h3, h4, h5, h6, h7, h8, h9, -⟩ := hn
    simp [handleCallTool, dispatchBody, wrapToolError, h1, h2, h3, h4, h5,
      h6, h7, h8, h9]
  · simp [handleCallTool, hd, wrapToolError]
  · simp [handleCallTool, hd, wrapToolError]

/-- Witness for C5: an unknown tool name, a structured invalid-request
error propagating unchanged, and a raw TypeError wrapped into an
internal-error carrying its message. -/
theorem dispatch_error_contract_witness :
    ("chrome_teleport" ∉ knownToolNames ∧
      handleCallTool ("chrome_teleport") none freshState okEnv =
        (Except.error ⟨ErrorCode.MethodNotFound, "未知的工具: chrome_teleport"⟩,
          freshState, [])) ∧
    (dispatchBody ("chrome_screenshot") (some {}) freshState okEnv =
        (Except.error (JsError.mcp ⟨ErrorCode.InvalidRequest, "浏览器未初始化"⟩),
          freshState, []) ∧
      handleCallTool ("chrome_screenshot") (some {}) freshState okEnv =
        (Except.error ⟨ErrorCode.InvalidRequest, "浏览器未初始化"⟩,
          freshState, [])) ∧
    (dispatchBody ("chrome_navigate") none freshState okEnv =
        (Except.error (JsError.raw undefinedArgsMsg), freshState, []) ∧
      handleCallTool ("chrome_navigate") none freshState okEnv =
        (Except.error ⟨ErrorCode.InternalError,
          "工具执行失败: " ++ undefinedArgsMsg⟩, freshState, [])) := by
  refine ⟨⟨by decide, ?_⟩, ⟨by decide, ?_⟩, ⟨by decide, ?_⟩⟩
  · exact (dispatch_error_contract ("chrome_teleport") none freshState
      freshState okEnv ⟨ErrorCode.InternalError, ""⟩ ("") []).1 (by decide)
  · exact (dispatch_error_contract ("chrome_screenshot") (some {}) freshState
      freshState okEnv ⟨ErrorCode.InvalidRequest, "浏览器未初始化"⟩ ("") []).2.1
      (by decide)
  · exact (dispatch_error_contract ("chrome_navigate") none freshState
      freshState okEnv ⟨ErrorCode.InternalError, ""⟩ undefinedArgsMsg []).2.2
      (by decide)

end ChromeMcp
